import Mathlib

/-!
Verification of the PTY web-terminal bridge (`src/web_terminal.py`).

The development shallow-embeds the POSIX branch of `websocket_handler`
(the inbound-message loop, the `read_pty` output-relay task, the
authentication gate, the `finally` teardown and `set_pty_size`) plus the
geometry of the Windows spawn call.  Python values are modelled as
follows: byte strings are `List Nat`; the result of `json.loads` on a
textual frame is passed alongside the frame as an `Option Json`
(`none` models a raised `json.JSONDecodeError`); OS calls on the PTY
master descriptor follow the documented POSIX semantics (writing to the
master after the child - the only holder of the slave side - has exited
fails with `OSError EIO`; closing an already-closed descriptor fails
with `OSError EBADF`; `struct.pack` with the `H` format raises
`struct.error` unless `0 <= v <= 65535`).
-/

namespace WebTerminal

/-- Byte strings (Python `bytes`) as lists of byte values. -/
abbrev Bytes := List Nat

/-- JSON values as produced by `json.loads`.  Numbers are modelled as
integers; values whose Python type `struct.pack` rejects (strings,
null, arrays, objects — and, in the real code, also non-integral
floats) are covered by the non-`num`, non-`bool` constructors. -/
inductive Json where
  | null
  | bool (b : Bool)
  | num (n : Int)
  | str (s : String)
  | arr (elems : List Json)
  | obj (fields : List (String × Json))

/-- Lookup in a Python dict built by `json.loads`: duplicate keys keep
the last binding. -/
def lookupLast (fields : List (String × Json)) (k : String) : Option Json :=
  match fields with
  | [] => none
  | (k2, v) :: rest =>
    match lookupLast rest k with
    | some r => some r
    | none => if k2 == k then some v else none

/-- Python `dict.get(k, default)`. -/
def jget (fields : List (String × Json)) (k : String) (d : Json) : Json :=
  (lookupLast fields k).getD d

/-- The integer `struct.pack` accepts for an `H` slot, if any: ints are
packed as themselves and Python `bool` is an `int` subclass
(`True` packs as 1); every other JSON value raises. -/
def Json.packableInt : Json → Option Int
  | .num n => some n
  | .bool b => some (if b then 1 else 0)
  | _ => none

/-- `isinstance(j, dict) and j.get('type') == 'resize'` from the
inbound loop. -/
def Json.isResizeCmd : Json → Bool
  | .obj fields =>
    match lookupLast fields "type" with
    | some (.str t) => t == "resize"
    | _ => false
  | _ => false

/-- Exceptions the modelled Python fragments can raise. -/
inductive PyError where
  | structError
  | eioError
  | ebadfError
deriving DecidableEq

/-- State of a POSIX session's PTY backend: the kernel winsize of the
master (rows, cols), liveness of the shell child, whether the master
descriptor is still open, and the byte stream written to the shell's
input so far. -/
structure PtyState where
  dims : Nat × Nat
  childAlive : Bool
  masterOpen : Bool
  input : Bytes
deriving DecidableEq

/-- The POSIX spawn (`os.openpty()` + `subprocess.Popen`): no
`TIOCSWINSZ` is issued, so the kernel winsize stays at its zeroed
default; the child starts alive and the parent keeps the master open. -/
def unixSpawn : PtyState :=
  { dims := (0, 0), childAlive := true, masterOpen := true, input := [] }

/-- Windows PTY backend state, modelled only as far as claim C8 needs:
the geometry passed to `pywinpty.PtyProcess.spawn`. -/
structure WinPty where
  rows : Nat
  cols : Nat
  alive : Bool
deriving DecidableEq

/-- The Windows spawn: `cols, rows = 80, 24` and
`pywinpty.PtyProcess.spawn([shell], dimensions=(rows, cols))`. -/
def winSpawn : WinPty := { rows := 24, cols := 80, alive := true }

/-- `os.write(master_fd, b)`: appends to the child's input stream;
fails with `EBADF` on a closed descriptor and with `EIO` once the child
(sole holder of the slave side) has exited. -/
def os_write (s : PtyState) (b : Bytes) : Except PyError PtyState :=
  if s.masterOpen then
    if s.childAlive then Except.ok { s with input := s.input ++ b }
    else Except.error PyError.eioError
  else Except.error PyError.ebadfError

/-- `os.close(master_fd)`: closes the master; a second close raises
`EBADF`. -/
def os_close (s : PtyState) : Except PyError PtyState :=
  if s.masterOpen then Except.ok { s with masterOpen := false }
  else Except.error PyError.ebadfError

/-- `proc.terminate()`: `Popen.send_signal` is a no-op once the child
is known dead and signalling a live or zombie child never raises. -/
def proc_terminate (s : PtyState) : PtyState :=
  { s with childAlive := false }

/-- `set_pty_size(fd, rows, cols)`: `struct.pack('HHHH', rows, cols, 0, 0)`
raises `struct.error` unless both values fit an unsigned 16-bit slot;
then `fcntl.ioctl(fd, TIOCSWINSZ, winsize)` installs exactly the packed
geometry (raising `EBADF` on a closed descriptor). -/
def set_pty_size (s : PtyState) (rows cols : Int) : Except PyError PtyState :=
  if 0 ≤ rows ∧ rows ≤ 65535 ∧ 0 ≤ cols ∧ cols ≤ 65535 then
    if s.masterOpen then Except.ok { s with dims := (rows.toNat, cols.toNat) }
    else Except.error PyError.ebadfError
  else Except.error PyError.structError

/-- The body of the resize branch:
`set_pty_size(master_fd, j.get('rows', 24), j.get('cols', 80))`. -/
def resizeStep (s : PtyState) (j : Json) : Except PyError PtyState :=
  match j with
  | .obj fields =>
    match (jget fields "rows" (Json.num 24)).packableInt,
          (jget fields "cols" (Json.num 80)).packableInt with
    | some r, some c => set_pty_size s r c
    | _, _ => Except.error PyError.structError
  | _ => Except.error PyError.structError

/-- An inbound WebSocket message.  A TEXT frame carries its UTF-8 wire
payload `raw` together with the outcome of `json.loads` on it (`none`
models a raised decode error); `msg.data.encode()` recovers exactly
`raw`.  `other` stands for the remaining frame types the `elif` chain
ignores. -/
inductive InMsg where
  | text (raw : Bytes) (parsed : Option Json)
  | binary (b : Bytes)
  | close
  | other

/-- Outcome of handling one inbound message: keep looping, break on a
CLOSE frame, or let an uncaught exception abort the loop. -/
inductive StepResult where
  | goOn (s : PtyState)
  | closed (s : PtyState)
  | raised (s : PtyState) (e : PyError)
deriving DecidableEq

/-- The PTY state carried by a `StepResult`. -/
def stateOf : StepResult → PtyState
  | .goOn s => s
  | .closed s => s
  | .raised s _ => s

/-- The `except Exception:` arm: `os.write(master_fd, msg.data.encode())`.
An `OSError` raised by this write is itself uncaught and propagates. -/
def fallbackWrite (s : PtyState) (raw : Bytes) : StepResult :=
  match os_write s raw with
  | Except.ok s2 => StepResult.goOn s2
  | Except.error e => StepResult.raised s e

/-- One iteration of the inbound-message loop of `websocket_handler`
(POSIX branch).  TEXT: try `json.loads`; on a resize dict call
`set_pty_size` and `continue`, any exception from the `try` body
(decode error, `struct.error`, `OSError`) falls to the `except` arm
which writes the payload; a successfully parsed non-resize value falls
through the `if` and is dropped.  BINARY: bare `os.write`.  CLOSE:
break. -/
def handleMsg (s : PtyState) : InMsg → StepResult
  | .text raw parsed =>
    match parsed with
    | some j =>
      if j.isResizeCmd then
        match resizeStep s j with
        | Except.ok s2 => StepResult.goOn s2
        | Except.error _ => fallbackWrite s raw
      else StepResult.goOn s
    | none => fallbackWrite s raw
  | .binary b =>
    match os_write s b with
    | Except.ok s2 => StepResult.goOn s2
    | Except.error e => StepResult.raised s e
  | .close => StepResult.closed s
  | .other => StepResult.goOn s

/-- How the inbound loop ended. -/
inductive LoopExit where
  | finished
  | closedByPeer
  | raised (e : PyError)
deriving DecidableEq

/-- The `async for msg in ws` loop: messages are processed strictly in
sequence, each seeing the state left by its predecessor. -/
def runLoop (s : PtyState) : List InMsg → PtyState × LoopExit
  | [] => (s, LoopExit.finished)
  | m :: rest =>
    match handleMsg s m with
    | StepResult.goOn s2 => runLoop s2 rest
    | StepResult.closed s2 => (s2, LoopExit.closedByPeer)
    | StepResult.raised s2 e => (s2, LoopExit.raised e)

/-- The `finally` block of the POSIX branch:
`task.cancel(); proc.terminate(); os.close(master_fd)`
(the task cancellation does not touch the PTY state). -/
def unix_teardown (s : PtyState) : Except PyError PtyState :=
  os_close (proc_terminate s)

/-- A frame sent to the remote connection. -/
inductive OutFrame where
  | bytes (b : Bytes)
  | text (s : String)
deriving DecidableEq

/-- An observable event on the server side of the connection: a sent
frame or the server closing the socket. -/
inductive WsEvent where
  | frame (f : OutFrame)
  | closeWs
deriving DecidableEq

/-- The exact text of `json.dumps(\x7b'type': 'disconnect'\x7d)`. -/
def disconnectStr : String := "\x7b\"type\": \"disconnect\"\x7d"

/-- The `read_pty` relay task, applied to the successive return values
of `os.read(master_fd, 1024)`: each non-empty chunk is sent as one
binary frame, in order; the first empty read (EOF: the child exited)
breaks the loop, after which exactly
`ws.send_str(json.dumps(...)); ws.close()` run. -/
def read_pty (chunks : List Bytes) : List WsEvent :=
  match chunks with
  | [] => [WsEvent.frame (OutFrame.text disconnectStr), WsEvent.closeWs]
  | b :: rest =>
    if b = [] then [WsEvent.frame (OutFrame.text disconnectStr), WsEvent.closeWs]
    else WsEvent.frame (OutFrame.bytes b) :: read_pty rest

/-- The payload of a binary frame, if the event is one. -/
def dataPayload : WsEvent → Option Bytes
  | WsEvent.frame (OutFrame.bytes b) => some b
  | _ => none

/-- The binary-frame payloads of an event trace, in order. -/
def sentPayloads (evs : List WsEvent) : List Bytes :=
  evs.filterMap dataPayload

/-- The byte stream delivered by the binary frames of a trace. -/
def sentBytes (evs : List WsEvent) : Bytes :=
  (sentPayloads evs).flatten

/-- Whether an event is the `disconnect` notice. -/
def isDisconnectNotice : WsEvent → Bool
  | WsEvent.frame (OutFrame.text s) => s == disconnectStr
  | _ => false

/-- How many `disconnect` notices a trace contains. -/
def countDisconnects (evs : List WsEvent) : Nat :=
  (evs.filter isDisconnectNotice).length

/-- The authentication gate:
`expected = os.environ.get('TERMINAL_TOKEN')`,
`token = request.query.get('token') or ''`, and the connection is
accepted unless `not expected or token != expected`.  Both an unset and
an empty configured secret are falsy and reject every connection. -/
def authAccepts (expected query : Option String) : Bool :=
  match expected with
  | none => false
  | some e => if e = "" then false else (query.getD "") == e

/-- The rejection text sent on authentication failure. -/
def rejectionText : String := "Invalid token or TERMINAL_TOKEN not set."

/-- Observable outcome of one `websocket_handler` invocation (POSIX
branch): whether a shell was spawned, the frames sent by the gate
before any session existed, the relay task's trace, the PTY state after
the `finally` block (none if no PTY existed or the teardown itself
raised), how the inbound loop ended, and an exception raised by the
teardown. -/
structure HandlerRun where
  spawned : Bool
  preSent : List WsEvent
  relaySent : List WsEvent
  finalPty : Option PtyState
  loopExit : Option LoopExit
  tearRaised : Option PyError
deriving DecidableEq

/-- `websocket_handler` (POSIX branch), over the token handshake, the
PTY output chunks consumed by the relay task and the inbound messages:
on auth failure send the rejection text and close without spawning;
otherwise spawn, run the relay and the inbound loop, then run the
`finally` teardown. -/
def unix_websocket_handler (expected query : Option String)
    (chunks : List Bytes) (msgs : List InMsg) : HandlerRun :=
  if authAccepts expected query then
    match runLoop unixSpawn msgs with
    | (s1, ex) =>
      match unix_teardown s1 with
      | Except.ok s2 =>
        { spawned := true, preSent := [], relaySent := read_pty chunks,
          finalPty := some s2, loopExit := some ex, tearRaised := none }
      | Except.error e =>
        { spawned := true, preSent := [], relaySent := read_pty chunks,
          finalPty := none, loopExit := some ex, tearRaised := some e }
  else
    { spawned := false,
      preSent := [WsEvent.frame (OutFrame.text rejectionText), WsEvent.closeWs],
      relaySent := [], finalPty := none, loopExit := none, tearRaised := none }

/-- The UTF-8 wire bytes of an ASCII string, for writing concrete
payloads readably (on ASCII text the UTF-8 encoding is the code-point
sequence). -/
def strBytes (s : String) : Bytes :=
  s.data.map (fun c => c.toNat)

theorem os_write_ok_masterOpen {s s2 : PtyState} {b : Bytes}
    (h : os_write s b = Except.ok s2) : s2.masterOpen = s.masterOpen := by
  unfold os_write at h
  split at h
  · split at h
    · injection h with h2
      subst h2
      rfl
    · exact absurd h (by simp)
  · exact absurd h (by simp)

theorem set_pty_size_ok_masterOpen {s s2 : PtyState} {r c : Int}
    (h : set_pty_size s r c = Except.ok s2) : s2.masterOpen = s.masterOpen := by
  unfold set_pty_size at h
  split at h
  · split at h
    · injection h with h2
      subst h2
      rfl
    · exact absurd h (by simp)
  · exact absurd h (by simp)

theorem resizeStep_ok_masterOpen {s s2 : PtyState} {j : Json}
    (h : resizeStep s j = Except.ok s2) : s2.masterOpen = s.masterOpen := by
  unfold resizeStep at h
  split at h
  · split at h
    · exact set_pty_size_ok_masterOpen h
    · exact absurd h (by simp)
  · exact absurd h (by simp)

theorem fallbackWrite_masterOpen (s : PtyState) (raw : Bytes) :
    (stateOf (fallbackWrite s raw)).masterOpen = s.masterOpen := by
  unfold fallbackWrite
  cases h : os_write s raw with
  | ok s2 => simpa [stateOf] using os_write_ok_masterOpen h
  | error e => simp [stateOf]

theorem handleMsg_masterOpen (s : PtyState) (m : InMsg) :
    (stateOf (handleMsg s m)).masterOpen = s.masterOpen := by
  cases m with
  | text raw parsed =>
    cases parsed with
    | none => simpa [handleMsg] using fallbackWrite_masterOpen s raw
    | some j =>
      simp only [handleMsg]
      split
      · cases h : resizeStep s j with
        | ok s2 => simpa [stateOf] using resizeStep_ok_masterOpen h
        | error e => simpa using fallbackWrite_masterOpen s raw
      · simp [stateOf]
  | binary b =>
    simp only [handleMsg]
    cases h : os_write s b with
    | ok s2 => simpa [stateOf] using os_write_ok_masterOpen h
    | error e => simp [stateOf]
  | close => simp [handleMsg, stateOf]
  | other => simp [handleMsg, stateOf]

theorem runLoop_masterOpen (msgs : List InMsg) : ∀ s : PtyState,
    ((runLoop s msgs).1).masterOpen = s.masterOpen := by
  induction msgs with
  | nil => intro s; rfl
  | cons m rest ih =>
    intro s
    have hm := handleMsg_masterOpen s m
    simp only [runLoop]
    cases h : handleMsg s m with
    | goOn s2 =>
      rw [h] at hm
      simp only [stateOf] at hm
      rw [ih s2, hm]
    | closed s2 =>
      rw [h] at hm
      simpa [stateOf] using hm
    | raised s2 e =>
      rw [h] at hm
      simpa [stateOf] using hm

theorem countDisconnects_cons_data (b : Bytes) (l : List WsEvent) :
    countDisconnects (WsEvent.frame (OutFrame.bytes b) :: l) =
      countDisconnects l := by
  simp [countDisconnects, isDisconnectNotice]

/-- Claim C1, counterexample: the textual payload "123" parses as the
JSON number 123, which is not a resize control message, yet the inbound
loop forwards nothing to the PTY — the frame is dropped, so not every
non-resize textual frame reaches `os.write`. -/
theorem c1_counterexample :
    Json.isResizeCmd (Json.num 123) = false ∧
    handleMsg unixSpawn (InMsg.text (strBytes "123") (some (Json.num 123))) =
      StepResult.goOn unixSpawn ∧
    unixSpawn.input = [] :=
  ⟨rfl, rfl, rfl⟩

/-- Claim C1, amended: on an established session (child alive, master
descriptor open), every textual frame whose payload raises in
`json.loads` is forwarded in full to the PTY write, byte-identical to
the frame's payload, before the next message is processed; textual
frames that parse as JSON but are not resize objects are instead
discarded. -/
theorem c1_fallback_forwards (s : PtyState) (raw : Bytes) (rest : List InMsg)
    (halive : s.childAlive = true) (hopen : s.masterOpen = true) :
    runLoop s (InMsg.text raw none :: rest) =
      runLoop { s with input := s.input ++ raw } rest := by
  have hw : os_write s raw = Except.ok { s with input := s.input ++ raw } := by
    simp [os_write, halive, hopen]
  simp only [runLoop, handleMsg, fallbackWrite, hw]

/-- Claim C1, witness: the plain keystroke text "ls\n" (not valid JSON)
is appended verbatim to the shell's input stream. -/
theorem c1_fallback_forwards_witness :
    runLoop unixSpawn (InMsg.text (strBytes "ls\n") none :: []) =
      runLoop { unixSpawn with input := strBytes "ls\n" } [] :=
  c1_fallback_forwards unixSpawn (strBytes "ls\n") [] rfl rfl

/-- Claim C2: whenever the offered token differs from the configured
secret, or no secret is configured, the handler sends the plain-text
rejection and closes without ever spawning a shell. -/
theorem c2_auth_reject (expected query : Option String)
    (chunks : List Bytes) (msgs : List InMsg)
    (h : expected = none ∨ ∃ e, expected = some e ∧ query.getD "" ≠ e) :
    (unix_websocket_handler expected query chunks msgs).spawned = false ∧
    (unix_websocket_handler expected query chunks msgs).preSent =
      [WsEvent.frame (OutFrame.text rejectionText), WsEvent.closeWs] ∧
    (unix_websocket_handler expected query chunks msgs).finalPty = none := by
  have hacc : authAccepts expected query = false := by
    rcases h with h | ⟨e, he, hne⟩
    · subst h; rfl
    · subst he
      by_cases he0 : e = ""
      · simp [authAccepts, he0]
      · simp [authAccepts, he0]
        exact hne
  simp [unix_websocket_handler, hacc]

/-- Claim C2, witness: with secret "abc123" and offered token "wrong"
the connection is rejected and no shell is spawned. -/
theorem c2_auth_reject_witness :
    (unix_websocket_handler (some "abc123") (some "wrong") [] []).spawned = false ∧
    (unix_websocket_handler (some "abc123") (some "wrong") [] []).preSent =
      [WsEvent.frame (OutFrame.text rejectionText), WsEvent.closeWs] ∧
    (unix_websocket_handler (some "abc123") (some "wrong") [] []).finalPty = none :=
  c2_auth_reject (some "abc123") (some "wrong") [] []
    (Or.inr ⟨"abc123", rfl, by decide⟩)

/-- Claim C3, counterexample: the resize message with rows = 65536 > 0
and cols = 100 > 0 does not update the dimensions (struct.pack raises
and the except arm runs): the state keeps its old geometry and the
whole message text is forwarded to the PTY as input. -/
theorem c3_counterexample :
    handleMsg unixSpawn
      (InMsg.text (strBytes "\x7b\"type\": \"resize\", \"rows\": 65536, \"cols\": 100\x7d")
        (some (Json.obj
          [("type", Json.str "resize"), ("rows", Json.num 65536), ("cols", Json.num 100)]))) =
      StepResult.goOn { unixSpawn with
        input := strBytes "\x7b\"type\": \"resize\", \"rows\": 65536, \"cols\": 100\x7d" } ∧
    ({ unixSpawn with
        input := strBytes "\x7b\"type\": \"resize\", \"rows\": 65536, \"cols\": 100\x7d" } :
      PtyState).dims = (0, 0) :=
  ⟨rfl, rfl⟩

/-- Claim C3, amended: for every resize control message whose rows and
cols values (after defaulting a missing rows field to 24 and a missing
cols field to 80) are positive and at most 65535, processing the
message on a session with an open master updates the PTY dimensions to
exactly that (rows, cols) pair before the next message is processed,
and forwards nothing to the PTY input. -/
theorem c3_resize_applies (s : PtyState) (raw : Bytes)
    (fields : List (String × Json)) (rest : List InMsg) (r c : Int)
    (hty : lookupLast fields "type" = some (Json.str "resize"))
    (hrow : jget fields "rows" (Json.num 24) = Json.num r)
    (hcol : jget fields "cols" (Json.num 80) = Json.num c)
    (hr1 : 0 < r) (hr2 : r ≤ 65535) (hc1 : 0 < c) (hc2 : c ≤ 65535)
    (hopen : s.masterOpen = true) :
    runLoop s (InMsg.text raw (some (Json.obj fields)) :: rest) =
      runLoop { s with dims := (r.toNat, c.toNat) } rest := by
  have hcmd : (Json.obj fields).isResizeCmd = true := by
    simp [Json.isResizeCmd, hty]
  have hstep : resizeStep s (Json.obj fields) =
      Except.ok { s with dims := (r.toNat, c.toNat) } := by
    simp only [resizeStep, hrow, hcol, Json.packableInt, set_pty_size]
    rw [if_pos ⟨le_of_lt hr1, hr2, le_of_lt hc1, hc2⟩, if_pos hopen]
  simp only [runLoop, handleMsg, hcmd, if_true, hstep]

/-- Claim C3, witness: the message with type resize, cols 100 and a
missing rows field sets the dimensions to exactly (24, 100) — the
missing rows value defaulting to 24 — and forwards nothing. -/
theorem c3_resize_applies_witness :
    runLoop unixSpawn
      (InMsg.text (strBytes "\x7b\"type\": \"resize\", \"cols\": 100\x7d")
          (some (Json.obj [("type", Json.str "resize"), ("cols", Json.num 100)])) ::
        [InMsg.binary (strBytes "ls\n")]) =
      runLoop { unixSpawn with dims := (24, 100) } [InMsg.binary (strBytes "ls\n")] :=
  c3_resize_applies unixSpawn (strBytes "\x7b\"type\": \"resize\", \"cols\": 100\x7d")
    [("type", Json.str "resize"), ("cols", Json.num 100)]
    [InMsg.binary (strBytes "ls\n")] 24 100 rfl rfl rfl
    (by decide) (by decide) (by decide) (by decide) rfl

/-- Claim C4: when the PTY read stream reaches EOF, the relay task
sends exactly one disconnect notice, immediately followed by the server
closing the connection, and no data frame before it is a disconnect
notice. -/
theorem c4_disconnect_once (chunks : List Bytes) :
    countDisconnects (read_pty chunks) = 1 ∧
    ∃ pre, read_pty chunks = pre ++
        [WsEvent.frame (OutFrame.text disconnectStr), WsEvent.closeWs] ∧
      countDisconnects pre = 0 := by
  induction chunks with
  | nil => exact ⟨by decide, [], rfl, by decide⟩
  | cons b rest ih =>
    by_cases hb : b = []
    · subst hb
      refine ⟨?_, [], by simp [read_pty], by decide⟩
      rw [show read_pty ([] :: rest) =
          [WsEvent.frame (OutFrame.text disconnectStr), WsEvent.closeWs] from by
        simp [read_pty]]
      decide
    · obtain ⟨h1, pre, hpre, hzero⟩ := ih
      refine ⟨?_, WsEvent.frame (OutFrame.bytes b) :: pre, ?_, ?_⟩
      · rw [show read_pty (b :: rest) = WsEvent.frame (OutFrame.bytes b) :: read_pty rest
          from by simp [read_pty, hb]]
        rw [countDisconnects_cons_data]
        exact h1
      · simp [read_pty, hb, hpre]
      · rw [countDisconnects_cons_data]
        exact hzero

/-- Claim C5: the binary frames sent by the relay task are exactly the
chunks read from the PTY, in read order, so the delivered byte stream
equals the byte stream the shell wrote, with no insertion, duplication,
reordering, or truncation (the chunks the blocking read returns before
EOF are non-empty). -/
theorem c5_byte_fidelity (chunks : List Bytes) :
    (∀ b ∈ chunks, b ≠ []) →
    sentPayloads (read_pty chunks) = chunks ∧
    sentBytes (read_pty chunks) = chunks.flatten := by
  induction chunks with
  | nil => exact fun _ => ⟨rfl, rfl⟩
  | cons b rest ih =>
    intro h
    have hb : b ≠ [] := h b (by simp)
    have hrest : ∀ x ∈ rest, x ≠ [] := fun x hx => h x (by simp [hx])
    obtain ⟨h1, h2⟩ := ih hrest
    have hshape : read_pty (b :: rest) =
        WsEvent.frame (OutFrame.bytes b) :: read_pty rest := by
      simp [read_pty, hb]
    constructor
    · rw [hshape]
      simp [sentPayloads, dataPayload, List.filterMap_cons]
      exact h1
    · rw [hshape]
      simp only [sentBytes, sentPayloads, List.filterMap_cons, dataPayload]
      simp only [List.flatten_cons]
      simp only [sentBytes, sentPayloads] at h2
      rw [h2]

/-- Claim C5, witness: the two chunks "hi" and "!" are relayed as two
binary frames whose concatenation is exactly "hi!". -/
theorem c5_byte_fidelity_witness :
    sentPayloads (read_pty [strBytes "hi", strBytes "!"]) =
      [strBytes "hi", strBytes "!"] ∧
    sentBytes (read_pty [strBytes "hi", strBytes "!"]) = strBytes "hi!" :=
  c5_byte_fidelity [strBytes "hi", strBytes "!"] (by decide)

/-- Claim C6, counterexample: running the teardown sequence
(`proc.terminate(); os.close(master_fd)`) a second time is not a no-op:
the first run closes the master descriptor, and the second raises
`OSError EBADF` on the already-closed descriptor. -/
theorem c6_counterexample :
    unix_teardown unixSpawn =
      Except.ok { dims := (0, 0), childAlive := false, masterOpen := false, input := [] } ∧
    unix_teardown { dims := (0, 0), childAlive := false, masterOpen := false, input := [] } =
      Except.error PyError.ebadfError :=
  ⟨rfl, rfl⟩

/-- Claim C6, amended: on every authenticated session the handler runs
the teardown exactly once — the single `finally` block — and that one
invocation never fails, because the inbound loop never closes the
master descriptor; afterwards the child is terminated and the
descriptor closed.  The teardown is not idempotent: invoking it again
on the torn-down state raises `EBADF` instead of being a no-op. -/
theorem c6_teardown_once (expected query : Option String)
    (chunks : List Bytes) (msgs : List InMsg)
    (hacc : authAccepts expected query = true) :
    ∃ s2, (unix_websocket_handler expected query chunks msgs).finalPty = some s2 ∧
      (unix_websocket_handler expected query chunks msgs).tearRaised = none ∧
      s2.masterOpen = false ∧ s2.childAlive = false ∧
      unix_teardown s2 = Except.error PyError.ebadfError := by
  rcases hrl : runLoop unixSpawn msgs with ⟨s1, ex⟩
  have hopen : s1.masterOpen = true := by
    have h := runLoop_masterOpen msgs unixSpawn
    rw [hrl] at h
    exact h
  have htear : unix_teardown s1 =
      Except.ok { s1 with childAlive := false, masterOpen := false } := by
    simp [unix_teardown, proc_terminate, os_close, hopen]
  refine ⟨{ s1 with childAlive := false, masterOpen := false }, ?_, ?_, rfl, rfl,
    by simp [unix_teardown, proc_terminate, os_close]⟩
  · simp [unix_websocket_handler, hacc, hrl, htear]
  · simp [unix_websocket_handler, hacc, hrl, htear]

/-- Claim C6, witness: a session authenticated with secret "abc123"
and no traffic tears down exactly once; re-running the teardown on the
final state raises `EBADF`. -/
theorem c6_teardown_once_witness :
    ∃ s2, (unix_websocket_handler (some "abc123") (some "abc123") [] []).finalPty = some s2 ∧
      (unix_websocket_handler (some "abc123") (some "abc123") [] []).tearRaised = none ∧
      s2.masterOpen = false ∧ s2.childAlive = false ∧
      unix_teardown s2 = Except.error PyError.ebadfError :=
  c6_teardown_once (some "abc123") (some "abc123") [] [] rfl

/-- Claim C7, counterexample: a binary input frame processed after the
child has exited makes `os.write` raise `EIO`; the error escapes the
inbound loop instead of failing silently, and the bytes are not
delivered. -/
theorem c7_counterexample :
    handleMsg { unixSpawn with childAlive := false } (InMsg.binary (strBytes "ls\n")) =
      StepResult.raised { unixSpawn with childAlive := false } PyError.eioError :=
  rfl

/-- Claim C7, amended: a write of input bytes performed after the child
has exited raises `OSError EIO`, which the handler does not catch: the
inbound loop aborts exceptionally at that message (later messages are
never processed, the bytes are not delivered) and control falls to the
session's teardown. -/
theorem c7_write_after_exit_raises (s : PtyState) (b : Bytes)
    (rest : List InMsg)
    (hdead : s.childAlive = false) (hopen : s.masterOpen = true) :
    runLoop s (InMsg.binary b :: rest) = (s, LoopExit.raised PyError.eioError) := by
  have hw : os_write s b = Except.error PyError.eioError := by
    simp [os_write, hdead, hopen]
  simp only [runLoop, handleMsg, hw]

/-- Claim C7, witness: after child exit, a binary "w" frame aborts the
loop with `EIO` even with further messages pending. -/
theorem c7_write_after_exit_raises_witness :
    runLoop { unixSpawn with childAlive := false }
        [InMsg.binary (strBytes "w"), InMsg.binary (strBytes "q")] =
      ({ unixSpawn with childAlive := false }, LoopExit.raised PyError.eioError) :=
  c7_write_after_exit_raises { unixSpawn with childAlive := false }
    (strBytes "w") [InMsg.binary (strBytes "q")] rfl rfl

/-- Claim C8, counterexample: the POSIX spawn path issues no
`TIOCSWINSZ`, so the freshly spawned PTY keeps the zeroed kernel
default instead of the claimed 80x24 geometry. -/
theorem c8_counterexample : unixSpawn.dims ≠ (24, 80) := by
  decide

/-- Claim C8, amended: only the Windows backend is spawned with the
default 80-column by 24-row geometry; the POSIX backend is spawned with
no explicit geometry and keeps the zeroed kernel winsize until the
first resize message. -/
theorem c8_spawn_geometry :
    winSpawn.rows = 24 ∧ winSpawn.cols = 80 ∧ unixSpawn.dims = (0, 0) :=
  ⟨rfl, rfl, rfl⟩

/-- Claim C9, counterexample: the resize message with the oversized
value rows = 70000 is neither clamped nor defaulted: `struct.pack`
raises, the except arm runs, the geometry is left unchanged and the
whole message text is typed into the shell as literal input. -/
theorem c9_counterexample :
    resizeStep unixSpawn
      (Json.obj [("type", Json.str "resize"), ("rows", Json.num 70000), ("cols", Json.num 100)]) =
      Except.error PyError.structError ∧
    handleMsg unixSpawn
      (InMsg.text (strBytes "\x7b\"type\": \"resize\", \"rows\": 70000, \"cols\": 100\x7d")
        (some (Json.obj
          [("type", Json.str "resize"), ("rows", Json.num 70000), ("cols", Json.num 100)]))) =
      StepResult.goOn { unixSpawn with
        input := strBytes "\x7b\"type\": \"resize\", \"rows\": 70000, \"cols\": 100\x7d" } :=
  ⟨rfl, rfl⟩

/-- Claim C9, amended: a resize control message whose values make the
resize call fail (malformed or out of the 0..65535 range) does not
raise out of the loop and does not tear the session down while the
child is alive; but rather than being clamped or defaulted, the resize
is abandoned and the raw message text is forwarded to the shell as
literal input. -/
theorem c9_bad_resize_forwarded (s : PtyState) (raw : Bytes) (j : Json)
    (rest : List InMsg) (e : PyError)
    (hcmd : j.isResizeCmd = true)
    (herr : resizeStep s j = Except.error e)
    (halive : s.childAlive = true) (hopen : s.masterOpen = true) :
    runLoop s (InMsg.text raw (some j) :: rest) =
      runLoop { s with input := s.input ++ raw } rest := by
  have hw : os_write s raw = Except.ok { s with input := s.input ++ raw } := by
    simp [os_write, halive, hopen]
  simp only [runLoop, handleMsg, hcmd, if_true, herr, fallbackWrite, hw]

/-- Claim C9, witness: a resize message whose rows value is the string
"abc" leaves the loop running and appends the message text to the
shell's input. -/
theorem c9_bad_resize_forwarded_witness :
    runLoop unixSpawn
      (InMsg.text (strBytes "\x7b\"type\": \"resize\", \"rows\": \"abc\", \"cols\": 100\x7d")
          (some (Json.obj
            [("type", Json.str "resize"), ("rows", Json.str "abc"), ("cols", Json.num 100)])) ::
        []) =
      runLoop { unixSpawn with
        input := strBytes "\x7b\"type\": \"resize\", \"rows\": \"abc\", \"cols\": 100\x7d" } [] :=
  c9_bad_resize_forwarded unixSpawn
    (strBytes "\x7b\"type\": \"resize\", \"rows\": \"abc\", \"cols\": 100\x7d")
    (Json.obj [("type", Json.str "resize"), ("rows", Json.str "abc"), ("cols", Json.num 100)])
    [] PyError.structError rfl rfl rfl rfl

/-- Claim C10: a textual frame that parses as JSON but is not an object
whose "type" equals "resize" (a string, number, array, or an object of
another type) causes no control action and forwards nothing to the
shell: the session state is unchanged and the loop moves on. -/
theorem c10_nonresize_json_dropped (s : PtyState) (raw : Bytes) (j : Json)
    (rest : List InMsg) (h : j.isResizeCmd = false) :
    runLoop s (InMsg.text raw (some j) :: rest) = runLoop s rest := by
  simp only [runLoop, handleMsg, h, Bool.false_eq_true, if_false]

/-- Claim C10, witness: the payload "[]" parses as an empty JSON array
and is silently discarded — the state is untouched. -/
theorem c10_nonresize_json_dropped_witness :
    runLoop unixSpawn (InMsg.text (strBytes "[]") (some (Json.arr [])) :: []) =
      runLoop unixSpawn [] :=
  c10_nonresize_json_dropped unixSpawn (strBytes "[]") (Json.arr []) [] rfl

end WebTerminal

